import Mathlib

/-!
Shallow embedding of the pink-trombone articulatory speech synthesizer
(crate `pink-trombone`: `src/math.rs`, `src/noise.rs`, `src/glottis.rs`,
`src/tract.rs`, `src/tract_shaper.rs`, `src/trombone.rs`, `src/turbulence.rs`).

Machine floating-point numbers (`f32`/`f64`) are modelled as rationals `ℚ`;
the transcendental primitives the code uses (`sin`, `cos`, `exp`, `ln`,
`sqrt`, `powf`, the constant `PI`, and the smooth simplex-noise generator of
the crate's `noise_gen` module, whose source file is not present) are
abstracted into an `Ops` record of rational functions, so every definition
stays computable.  Fixed-length Rust arrays are modelled as total functions
`ℕ → ℚ` that the loops update only below the array length.  Rust `panic!`
is modelled with `Option`.  All mutation is explicit state passing.
-/

namespace PinkTromboneModel

/-- Abstraction of the transcendental floating-point primitives used by the
code (`f32`/`f64` `sin`, `cos`, `exp`, `ln`, `sqrt`, `powf` and the constant
`PI`), plus the smooth coherent-noise generator `NoiseGenerator::simplex` of
the crate's `noise_gen` module.  Modelled from the spec: `noise_gen.rs` is
not among the sources; §4.3 describes it as a pure, seeded function of a
continuous time coordinate, so `simplex` takes the 16-bit seed and the time
argument. -/
structure Ops where
  pi : ℚ
  sin : ℚ → ℚ
  cos : ℚ → ℚ
  exp : ℚ → ℚ
  ln : ℚ → ℚ
  sqrt : ℚ → ℚ
  pow : ℚ → ℚ → ℚ
  simplex : ℕ → ℚ → ℚ

/-- Source: `src/math.rs`, `interpolate`. -/
def interpolate (i0 i1 v : ℚ) : ℚ := i0 + v * (i1 - i0)

/-- Source: `src/math.rs`, `move_towards`. -/
def move_towards (current target amount_up amount_down : ℚ) : ℚ :=
  if current < target then min target (current + amount_up)
  else max target (current - amount_down)

/-- Source: `src/math.rs`, `sqr`. -/
def sqr (x : ℚ) : ℚ := x * x

/-- Abstract pull-based noise source (`NoiseSource<f64>` in `src/noise.rs`):
an infinite stream of values together with the position of the next draw. -/
structure NoiseSource where
  stream : ℕ → ℚ
  pos : ℕ

/-- One draw from the noise source. -/
def NoiseSource.noise (r : NoiseSource) : ℚ × NoiseSource :=
  (r.stream r.pos, { r with pos := r.pos + 1 })

/-- Source: `src/noise.rs`, `BiquadIirFilter` (normalized coefficients plus
the rolling history of two inputs and two outputs). -/
structure BiquadIirFilter where
  nb0 : ℚ
  nb1 : ℚ
  nb2 : ℚ
  na1 : ℚ
  na2 : ℚ
  x1 : ℚ
  x2 : ℚ
  y1 : ℚ
  y2 : ℚ

/-- Source: `src/noise.rs`, `BiquadIirFilter::new`. -/
def BiquadIirFilter.new (b0 b1 b2 a0 a1 a2 : ℚ) : BiquadIirFilter :=
  { nb0 := b0 / a0, nb1 := b1 / a0, nb2 := b2 / a0, na1 := a1 / a0, na2 := a2 / a0,
    x1 := 0, x2 := 0, y1 := 0, y2 := 0 }

/-- Source: `src/noise.rs`, `impl Filter for BiquadIirFilter`. -/
def BiquadIirFilter.filter (f : BiquadIirFilter) (x : ℚ) : ℚ × BiquadIirFilter :=
  let y := f.nb0 * x + f.nb1 * f.x1 + f.nb2 * f.x2 - f.na1 * f.y1 - f.na2 * f.y2
  (y, { f with x2 := f.x1, x1 := x, y2 := f.y1, y1 := y })

/-- Source: `src/noise.rs`, `new_bandpass_filter`. -/
def new_bandpass_filter (ops : Ops) (f0 q : ℚ) (sample_rate : ℕ) : BiquadIirFilter :=
  let w0 := 2 * ops.pi * f0 / (sample_rate : ℚ)
  let alpha := ops.sin w0 / (2 * q)
  BiquadIirFilter.new alpha 0 (-alpha) (1 + alpha) (-2 * ops.cos w0) (1 - alpha)

/-- Source: `src/noise.rs`, `LoopedNoiseBuffer`.  The buffer drawn at
construction is modelled as the function sending slot `i` to the value the
`i`-th draw produced. -/
structure LoopedNoiseBuffer where
  noise : ℕ → ℚ
  len : ℕ
  current_index : ℕ

/-- Source: `src/noise.rs`, `new_looped_white_noise`: draws `loop_size`
values, mapping each to `2·v − 1`. -/
def new_looped_white_noise (loop_size : ℕ) (rng : NoiseSource) :
    LoopedNoiseBuffer × NoiseSource :=
  ({ noise := fun i => 2 * rng.stream (rng.pos + i) - 1, len := loop_size, current_index := 0 },
   { rng with pos := rng.pos + loop_size })

/-- Source: `src/noise.rs`, `impl NoiseSource<f64> for LoopedNoiseBuffer`. -/
def LoopedNoiseBuffer.noiseStep (b : LoopedNoiseBuffer) : ℚ × LoopedNoiseBuffer :=
  let idx := if b.current_index ≥ b.len then 0 else b.current_index
  (b.noise idx, { b with current_index := idx + 1 })

/-- State of the boxed closure returned by `new_filtered_noise_source`
(`src/noise.rs`): a looped white-noise buffer feeding a bandpass filter. -/
structure FilteredNoise where
  buffer : LoopedNoiseBuffer
  filt : BiquadIirFilter

/-- Source: `src/noise.rs`, `new_filtered_noise_source`. -/
def new_filtered_noise_source (ops : Ops) (f0 q : ℚ) (sample_rate : ℕ) (loop_size : ℕ)
    (rng : NoiseSource) : FilteredNoise × NoiseSource :=
  let wn := new_looped_white_noise loop_size rng
  ({ buffer := wn.1, filt := new_bandpass_filter ops f0 q sample_rate }, wn.2)

/-- One call of the boxed closure: pull a looped white-noise sample and run
it through the filter. -/
def FilteredNoise.step (f : FilteredNoise) : ℚ × FilteredNoise :=
  let xb := f.buffer.noiseStep
  let yf := f.filt.filter xb.1
  (yf.1, { buffer := xb.2, filt := yf.2 })

/-- Modelled from the spec: `transient.rs` is not among the sources; §3 of
the spec gives the record fields, and `src/tract.rs` / `src/tract_shaper.rs`
use exactly these fields. -/
structure Transient where
  position : ℕ
  start_time : ℚ
  life_time : ℚ
  strength : ℚ
  exponent : ℚ

/-- Source: `src/turbulence.rs`, `TurbulencePoint`.  The `f32::NAN` sentinel
used for a still-active point's `end_time` is modelled as `none`. -/
structure TurbulencePoint where
  diameter : ℚ
  position : ℚ
  start_time : ℚ
  end_time : Option ℚ

/-- Source: `src/glottis.rs`, `Glottis`.  The field `noise_generator` keeps
only the 16-bit seed; its `simplex` samples go through `Ops.simplex`. -/
structure Glottis where
  always_voice : Bool
  auto_wobble : Bool
  is_touched : Bool
  target_tenseness : ℚ
  target_frequency : ℚ
  vibrato_amount : ℚ
  vibrato_frequency : ℚ
  noise_generator : ℕ
  sample_rate : ℕ
  sample_count : ℕ
  intensity : ℚ
  loudness : ℚ
  smooth_frequency : ℚ
  time_in_waveform : ℚ
  old_tenseness : ℚ
  new_tenseness : ℚ
  old_frequency : ℚ
  new_frequency : ℚ
  aspiration_noise_source : FilteredNoise
  waveform_length : ℚ
  alpha : ℚ
  e0 : ℚ
  epsilon : ℚ
  shift : ℚ
  delta : ℚ
  te : ℚ
  omega : ℚ

/-- Source: `src/glottis.rs`, `Glottis::setup_waveform`. -/
def Glottis.setup_waveform (ops : Ops) (g : Glottis) (lambda : ℚ) : Glottis :=
  let frequency := interpolate g.old_frequency g.new_frequency lambda
  let tenseness := interpolate g.old_tenseness g.new_tenseness lambda
  let waveform_length := 1 / frequency
  let loudness := ops.pow (max tenseness 0) 0.25
  let rd := min (max (3 * (1 - tenseness)) 0.5) 2.7
  let ra := -0.01 + 0.048 * rd
  let rk := 0.224 + 0.118 * rd
  let rg := (rk / 4) * (0.5 + 1.2 * rk) / (0.11 * rd - ra * (0.5 + 1.2 * rk))
  let ta := ra
  let tp := 1 / (2 * rg)
  let te := tp + tp * rk
  let epsilon := 1 / ta
  let shift := ops.exp (-epsilon * (1 - te))
  let delta := 1 - shift
  let rhs_integral := ((1 / epsilon) * (shift - 1) + (1 - te) * shift) / delta
  let total_lower_integral := rhs_integral - (te - tp) / 2
  let total_upper_integral := -total_lower_integral
  let omega := ops.pi / tp
  let s := ops.sin (omega * te)
  let y := -ops.pi * s * total_upper_integral / (tp * 2)
  let z := ops.ln y
  let alpha := z / (tp / 2 - te)
  let e0 := -1 / (s * ops.exp (alpha * te))
  { g with waveform_length := waveform_length, loudness := loudness,
           alpha := alpha, e0 := e0, epsilon := epsilon, shift := shift,
           delta := delta, te := te, omega := omega }

/-- Source: `src/glottis.rs`, `Glottis::new`. -/
def Glottis.new (ops : Ops) (sample_rate : ℕ) (rng : NoiseSource) (seed : ℕ) :
    Glottis × NoiseSource :=
  let asp := new_filtered_noise_source ops 500 0.5 sample_rate 0x8000 rng
  let g : Glottis :=
    { always_voice := true, auto_wobble := true, is_touched := false,
      target_tenseness := 0.6, target_frequency := 140,
      vibrato_amount := 0.005, vibrato_frequency := 6,
      noise_generator := seed, sample_rate := sample_rate,
      sample_count := 0, intensity := 0, loudness := 1,
      smooth_frequency := 140, time_in_waveform := 0,
      old_tenseness := 0.6, new_tenseness := 0.6,
      old_frequency := 140, new_frequency := 140,
      aspiration_noise_source := asp.1, waveform_length := 0,
      alpha := 0, e0 := 0, epsilon := 0, shift := 0, delta := 0, te := 0, omega := 0 }
  (g.setup_waveform ops 0, asp.2)

/-- Source: `src/glottis.rs`, `Glottis::set_musical_note`. -/
def Glottis.set_musical_note (ops : Ops) (g : Glottis) (semitone : ℚ) : Glottis :=
  { g with target_frequency := 440 * ops.pow 2 (semitone * (1 / 12)) }

/-- Source: `src/glottis.rs`, `Glottis::get_noise_modulator`. -/
def Glottis.get_noise_modulator (ops : Ops) (g : Glottis) : ℚ :=
  let voiced := 0.1 + 0.2 * max 0 (ops.sin (ops.pi * 2 * g.time_in_waveform / g.waveform_length))
  g.target_tenseness * g.intensity * voiced + (1 - g.target_tenseness * g.intensity) * 0.3

/-- Source: `src/glottis.rs`, `Glottis::normalized_lf_waveform`. -/
def Glottis.normalized_lf_waveform (ops : Ops) (g : Glottis) (t : ℚ) : ℚ :=
  let output :=
    if t > g.te then (-(ops.exp (-g.epsilon * (t - g.te))) + g.shift) / g.delta
    else g.e0 * ops.exp (g.alpha * t) * ops.sin (g.omega * t)
  output * g.intensity * g.loudness

/-- Source: `src/glottis.rs`, `Glottis::step`. -/
def Glottis.step (ops : Ops) (g : Glottis) (lambda : ℚ) : ℚ × Glottis :=
  let time := (g.sample_count : ℚ) / (g.sample_rate : ℚ)
  let g1 :=
    if g.time_in_waveform > g.waveform_length then
      Glottis.setup_waveform ops { g with time_in_waveform := g.time_in_waveform - g.waveform_length } lambda
    else g
  let out1 := g1.normalized_lf_waveform ops (g1.time_in_waveform / g1.waveform_length)
  let asp := g1.aspiration_noise_source.step
  let aspiration1 := g1.intensity * (1 - ops.sqrt g1.target_tenseness) *
    Glottis.get_noise_modulator ops g1 * asp.1
  let aspiration2 := aspiration1 * (0.2 + 0.02 * ops.simplex g1.noise_generator (time * 1.99))
  let result := out1 + aspiration2
  (result, { g1 with sample_count := g1.sample_count + 1,
                     time_in_waveform := g1.time_in_waveform + 1 / (g1.sample_rate : ℚ),
                     aspiration_noise_source := asp.2 })

/-- Source: `src/glottis.rs`, `Glottis::calculate_vibrato`. -/
def Glottis.calculate_vibrato (ops : Ops) (g : Glottis) (time : ℚ) : ℚ :=
  let vibrato := g.vibrato_amount * ops.sin (ops.pi * 2 * time * g.vibrato_frequency)
  let vibrato := vibrato + 0.02 * ops.simplex g.noise_generator (time * 4.07)
  let vibrato := vibrato + 0.04 * ops.simplex g.noise_generator (time * 2.15)
  if g.auto_wobble then
    vibrato + 0.2 * ops.simplex g.noise_generator (time * 0.96)
      + 0.4 * ops.simplex g.noise_generator (time * 0.5)
  else vibrato

/-- Source: `src/glottis.rs`, `Glottis::calculate_new_frequency`. -/
def Glottis.calculate_new_frequency (ops : Ops) (g : Glottis) (time delta_time : ℚ) : Glottis :=
  let g1 :=
    if g.intensity = 0 then { g with smooth_frequency := g.target_frequency }
    else if g.target_frequency > g.smooth_frequency then
      { g with smooth_frequency := min g.target_frequency (g.smooth_frequency * (1 + 0.1 * delta_time)) }
    else if g.target_frequency < g.smooth_frequency then
      { g with smooth_frequency := max g.target_frequency (g.smooth_frequency / (1 + 0.1 * delta_time)) }
    else g
  { g1 with old_frequency := g1.new_frequency,
            new_frequency := max (g1.smooth_frequency * (1 + g1.calculate_vibrato ops time)) 10 }

/-- Source: `src/glottis.rs`, `Glottis::calculate_new_tenseness`. -/
def Glottis.calculate_new_tenseness (ops : Ops) (g : Glottis) (time : ℚ) : Glottis :=
  let g1 := { g with old_tenseness := g.new_tenseness }
  let nt := g1.target_tenseness + 0.1 * ops.simplex g1.noise_generator (time * 0.46)
    + 0.05 * ops.simplex g1.noise_generator (time * 0.36)
  let nt := max nt 0
  let nt :=
    if ¬g1.is_touched ∧ g1.always_voice then
      nt + (3 - g1.target_tenseness) * (1 - g1.intensity)
    else nt
  { g1 with new_tenseness := nt }

/-- Source: `src/glottis.rs`, `Glottis::adjust_intensity`. -/
def Glottis.adjust_intensity (g : Glottis) (delta : ℚ) : Glottis :=
  let intensity :=
    if g.is_touched ∨ g.always_voice then g.intensity + 0.13 * delta
    else g.intensity - 0.05 * delta
  { g with intensity := min 1 (max 0 intensity) }

/-- Source: `src/glottis.rs`, `Glottis::adjust_parameters`. -/
def Glottis.adjust_parameters (ops : Ops) (g : Glottis) (delta_time : ℚ) : Glottis :=
  let delta := delta_time * (g.sample_rate : ℚ) / 512
  let old_time := (g.sample_count : ℚ) / (g.sample_rate : ℚ)
  let new_time := old_time + delta_time
  let g1 := g.adjust_intensity delta
  let g2 := g1.calculate_new_frequency ops new_time delta
  g2.calculate_new_tenseness ops new_time

/-- Source: `src/tract.rs`, `Tract::N`. -/
def N : ℕ := 44

/-- Source: `src/tract.rs`, `Tract::BLADE_START`. -/
def BLADE_START : ℕ := 10

/-- Source: `src/tract.rs`, `Tract::TIP_START`. -/
def TIP_START : ℕ := 32

/-- Source: `src/tract.rs`, `Tract::LIP_START`. -/
def LIP_START : ℕ := 39

/-- Source: `src/tract.rs`, `NOSE_LEN`. -/
def NOSE_LEN : ℕ := 28

/-- Source: `src/tract.rs`, `NOSE_START = N - NOSE_LEN + 1` (= 17). -/
def NOSE_START : ℕ := N - NOSE_LEN + 1

/-- Source: `src/tract.rs`, `GLOTTAL_REFLECTION`. -/
def GLOTTAL_REFLECTION : ℚ := 0.75

/-- Source: `src/tract.rs`, `LIP_REFLECTION`. -/
def LIP_REFLECTION : ℚ := -0.85

/-- Source: `src/tract.rs`, `assert_volume` (the runtime check is disabled
in the source; the function is the identity). -/
def assert_volume (val : ℚ) : ℚ := val

/-- Source: `src/tract.rs`, `Tract`. -/
structure Tract where
  glottis : Glottis
  sample_rate : ℕ
  frication_noise_source : FilteredNoise
  sample_count : ℕ
  time : ℚ
  left : ℕ → ℚ
  right : ℕ → ℚ
  reflection : ℕ → ℚ
  new_reflection : ℕ → ℚ
  junction_output_right : ℕ → ℚ
  justion_output_left : ℕ → ℚ
  max_amplitude : ℕ → ℚ
  diameter : ℕ → ℚ
  transients : List Transient
  turbulence_points : List TurbulencePoint
  nose_right : ℕ → ℚ
  nose_left : ℕ → ℚ
  nose_junction_output_right : ℕ → ℚ
  nose_junction_output_left : ℕ → ℚ
  nose_reflection : ℕ → ℚ
  nose_diameter : ℕ → ℚ
  nose_max_amplitude : ℕ → ℚ
  reflection_left : ℚ
  reflection_right : ℚ
  new_reflection_left : ℚ
  new_reflection_right : ℚ
  reflection_nose : ℚ
  new_reflection_nose : ℚ

/-- Body of `Tract::new` (`src/tract.rs`) after its `sample_rate` guard:
the all-zero state and the frication noise source drawn from `rng`. -/
def Tract.mkRaw (ops : Ops) (glottis : Glottis) (sample_rate : ℕ) (rng : NoiseSource) :
    Tract × NoiseSource :=
  let fric := new_filtered_noise_source ops 1000 0.5 sample_rate 0x8000 rng
  ({ glottis := glottis, sample_rate := sample_rate, frication_noise_source := fric.1,
     sample_count := 0, time := 0,
     left := fun _ => 0, right := fun _ => 0, reflection := fun _ => 0,
     new_reflection := fun _ => 0, junction_output_right := fun _ => 0,
     justion_output_left := fun _ => 0, max_amplitude := fun _ => 0,
     diameter := fun _ => 0, transients := [], turbulence_points := [],
     nose_right := fun _ => 0, nose_left := fun _ => 0,
     nose_junction_output_right := fun _ => 0, nose_junction_output_left := fun _ => 0,
     nose_reflection := fun _ => 0, nose_diameter := fun _ => 0,
     nose_max_amplitude := fun _ => 0,
     reflection_left := 0, reflection_right := 0, new_reflection_left := 0,
     new_reflection_right := 0, reflection_nose := 0, new_reflection_nose := 0 }, fric.2)

/-- Source: `src/tract.rs`, `Tract::new`; the `panic!` on a zero sample rate
is modelled as `none`. -/
def Tract.new (ops : Ops) (glottis : Glottis) (sample_rate : ℕ) (rng : NoiseSource) :
    Option (Tract × NoiseSource) :=
  if sample_rate = 0 then none else some (Tract.mkRaw ops glottis sample_rate rng)

/-- Source: `src/tract.rs`, `Tract::calculate_nose_reflections`. -/
def Tract.calculate_nose_reflections (t : Tract) : Tract :=
  let a := fun i => max 1e-6 (sqr (t.nose_diameter i))
  { t with nose_reflection := fun i =>
      if 1 ≤ i ∧ i < NOSE_LEN then assert_volume ((a (i - 1) - a i) / (a (i - 1) + a i))
      else t.nose_reflection i }

/-- Source: `src/tract.rs`, `Tract::calculate_main_tract_reflections`. -/
def Tract.calculate_main_tract_reflections (t : Tract) : Tract :=
  let a := fun i => sqr (t.diameter i)
  { t with
    reflection := fun i =>
      if 1 ≤ i ∧ i < N then t.new_reflection i else t.reflection i,
    new_reflection := fun i =>
      if 1 ≤ i ∧ i < N then
        let sum := a (i - 1) + a i
        if |sum| > 1e-6 then (a (i - 1) - a i) / sum else 1
      else t.new_reflection i }

/-- Source: `src/tract.rs`, `Tract::calculate_nose_junction_reflections`. -/
def Tract.calculate_nose_junction_reflections (t : Tract) : Tract :=
  let t1 := { t with reflection_left := t.new_reflection_left,
                     reflection_right := t.new_reflection_right,
                     reflection_nose := t.new_reflection_nose }
  let velum_a := sqr (t1.nose_diameter 0)
  let an0 := sqr (t1.diameter NOSE_START)
  let an1 := sqr (t1.diameter (NOSE_START + 1))
  let sum := an0 + an1 + velum_a
  if |sum| > 1e-6 then
    { t1 with new_reflection_left := (2 * an0 - sum) / sum,
              new_reflection_right := (2 * an1 - sum) / sum,
              new_reflection_nose := (2 * velum_a - sum) / sum }
  else
    { t1 with new_reflection_left := 1, new_reflection_right := 1, new_reflection_nose := 1 }

/-- Source: `src/tract.rs`, `Tract::calculate_new_block_parameters`. -/
def Tract.calculate_new_block_parameters (t : Tract) : Tract :=
  (t.calculate_main_tract_reflections).calculate_nose_junction_reflections

/-- Reverse-order traversal of `Tract::process_transients` (`src/tract.rs`):
expired transients are dropped, live ones add half their decayed amplitude to
each travelling wave at their segment.  `time` is the tract time, constant
during the loop. -/
def processTransientsFold (ops : Ops) (time : ℚ) (ts : List Transient)
    (right left : ℕ → ℚ) : List Transient × (ℕ → ℚ) × (ℕ → ℚ) :=
  ts.foldr
    (fun tr acc =>
      let time_alive := time - tr.start_time
      if time_alive > tr.life_time then acc
      else
        let amplitude := tr.strength * ops.pow 2 (-(tr.exponent * time_alive))
        (tr :: acc.1,
         Function.update acc.2.1 tr.position (acc.2.1 tr.position + amplitude * 0.5),
         Function.update acc.2.2 tr.position (acc.2.2 tr.position + amplitude * 0.5)))
    ([], right, left)

/-- Source: `src/tract.rs`, `Tract::process_transients`. -/
def Tract.process_transients (ops : Ops) (t : Tract) : Tract :=
  let res := processTransientsFold ops t.time t.transients t.right t.left
  { t with transients := res.1, right := res.2.1, left := res.2.2 }

/-- Attack/release envelope of a turbulence point
(`Tract::add_turbulence_noise`, `src/tract.rs`, with
`FRICATIVE_ATTACK_TIME = 0.1`); `none` models the `f32::NAN` end time. -/
def turbulenceIntensity (time : ℚ) (p : TurbulencePoint) : ℚ :=
  match p.end_time with
  | none => min 1 (max 0 ((time - p.start_time) / 0.1))
  | some et => min 1 (max 0 (1 - (time - et) / 0.1))

/-- Source: `src/tract.rs`, `Tract::add_turbulence_noise_at_position`.
The caller skips points with `position < 2`, so the floor index is
nonnegative here. -/
def Tract.add_turbulence_noise_at_position (t : Tract)
    (turbulence_noise position diameter : ℚ) : Tract :=
  let i : ℤ := Int.floor position
  let delta := position - (i : ℚ)
  let thinnes0 := min 1 (max 0 (8 * (0.7 - diameter)))
  let openness := min 1 (max 0 (30 * (diameter - 0.3)))
  let noise0 := turbulence_noise * (1 - delta) * thinnes0 * openness
  let noise1 := turbulence_noise * delta * thinnes0 * openness
  let t1 :=
    if i + 1 < (N : ℤ) then
      let idx := (i + 1).toNat
      { t with right := Function.update t.right idx (t.right idx + noise0 * 0.5),
               left := Function.update t.left idx (t.left idx + noise0 * 0.5) }
    else t
  if i + 2 < (N : ℤ) then
    let idx := (i + 2).toNat
    { t1 with right := Function.update t1.right idx (t1.right idx + noise1 * 0.5),
              left := Function.update t1.left idx (t1.left idx + noise1 * 0.5) }
  else t1

/-- Source: `src/tract.rs`, `Tract::add_turbulence_noise`: first collect one
scaled noise sample per eligible point (advancing the frication noise
source), then inject them in order. -/
def Tract.add_turbulence_noise (ops : Ops) (t : Tract) : Tract :=
  let collected := t.turbulence_points.foldl
    (fun (acc : List (ℚ × ℚ × ℚ) × FilteredNoise) p =>
      if p.position < 2 ∨ p.position > (N : ℚ) then acc
      else if p.diameter ≤ 0 then acc
      else
        let intensity := turbulenceIntensity t.time p
        if intensity ≤ 0 then acc
        else
          let ns := acc.2.step
          let turbulence_noise := 0.66 * ns.1 * intensity * Glottis.get_noise_modulator ops t.glottis
          (acc.1 ++ [(turbulence_noise, p.position, p.diameter)], ns.2))
    ([], t.frication_noise_source)
  let t1 := { t with frication_noise_source := collected.2 }
  collected.1.foldl
    (fun tr x => tr.add_turbulence_noise_at_position x.1 x.2.1 x.2.2) t1

/-- Glottal-end boundary, lip-end boundary and interior-junction scatter of
`Tract::step` (`src/tract.rs`, the writes to `junction_output_right[0]`,
`justion_output_left[N]` and the loop over `1..N`). -/
def Tract.runJunctions (t : Tract) (glottal_output lambda : ℚ) : Tract :=
  { t with
    junction_output_right := fun i =>
      if i = 0 then t.left 0 * GLOTTAL_REFLECTION + glottal_output
      else if 1 ≤ i ∧ i < N then
        let r := interpolate (t.reflection i) (t.new_reflection i) lambda
        let w := r * (t.right (i - 1) + t.left i)
        assert_volume (t.right (i - 1) - w)
      else t.junction_output_right i,
    justion_output_left := fun i =>
      if i = N then t.right (N - 1) * LIP_REFLECTION
      else if 1 ≤ i ∧ i < N then
        let r := interpolate (t.reflection i) (t.new_reflection i) lambda
        let w := r * (t.right (i - 1) + t.left i)
        assert_volume (t.left i + w)
      else t.justion_output_left i }

/-- Three-way scatter at the nose coupling (`Tract::step`, the block at
`i = NOSE_START`); overwrites the two main-tract junction outputs at
`NOSE_START` and sets the nose inlet. -/
def Tract.noseJunction (t : Tract) (lambda : ℚ) : Tract :=
  let i := NOSE_START
  let r1 := interpolate t.reflection_left t.new_reflection_left lambda
  let r2 := interpolate t.reflection_right t.new_reflection_right lambda
  let r3 := interpolate t.reflection_nose t.new_reflection_nose lambda
  { t with
    justion_output_left := Function.update t.justion_output_left i
      (assert_volume (r1 * t.right (i - 1) + (1 + r1) * (t.nose_left 0 + t.left i))),
    junction_output_right := Function.update t.junction_output_right i
      (assert_volume (r2 * t.left i + (1 + r2) * (t.right (i - 1) + t.nose_left 0))),
    nose_junction_output_right := Function.update t.nose_junction_output_right 0
      (assert_volume (r3 * t.nose_left 0 + (1 + r3) * (t.left i + t.right (i - 1)))) }

/-- Wave shift with the 0.999 loss factor and the decaying peak-amplitude
envelope (`Tract::step`, loop over `0..N`). -/
def Tract.updateWaves (t : Tract) : Tract :=
  { t with
    right := fun i =>
      if i < N then t.junction_output_right i * 0.999 else t.right i,
    left := fun i =>
      if i < N then t.justion_output_left (i + 1) * 0.999 else t.left i,
    max_amplitude := fun i =>
      if i < N then
        max (t.max_amplitude i * 0.9999)
          |t.junction_output_right i * 0.999 + t.justion_output_left (i + 1) * 0.999|
      else t.max_amplitude i }

/-- Nose-branch lip boundary and interior scatter (`Tract::step`, the write
to `nose_junction_output_left[NOSE_LEN]` and the loop over `1..NOSE_LEN`). -/
def Tract.noseScatter (t : Tract) : Tract :=
  { t with
    nose_junction_output_left := fun i =>
      if i = NOSE_LEN then t.nose_right (NOSE_LEN - 1) * LIP_REFLECTION
      else if 1 ≤ i ∧ i < NOSE_LEN then
        let w := t.nose_reflection i * (t.nose_right (i - 1) + t.nose_left i)
        assert_volume (t.nose_left i + w)
      else t.nose_junction_output_left i,
    nose_junction_output_right := fun i =>
      if 1 ≤ i ∧ i < NOSE_LEN then
        let w := t.nose_reflection i * (t.nose_right (i - 1) + t.nose_left i)
        assert_volume (t.nose_right (i - 1) - w)
      else t.nose_junction_output_right i }

/-- Nose-branch wave shift, no loss factor (`Tract::step`, loop over
`0..NOSE_LEN`). -/
def Tract.updateNoseWaves (t : Tract) : Tract :=
  { t with
    nose_right := fun i =>
      if i < NOSE_LEN then t.nose_junction_output_right i else t.nose_right i,
    nose_left := fun i =>
      if i < NOSE_LEN then t.nose_junction_output_left (i + 1) else t.nose_left i,
    nose_max_amplitude := fun i =>
      if i < NOSE_LEN then
        max (t.nose_max_amplitude i * 0.9999)
          |t.nose_junction_output_right i + t.nose_junction_output_left (i + 1)|
      else t.nose_max_amplitude i }

/-- Source: `src/tract.rs`, `Tract::step`: one waveguide half-step. -/
def Tract.step (ops : Ops) (t : Tract) (glottal_output lambda : ℚ) : ℚ × Tract :=
  let t1 := t.process_transients ops
  let t2 := t1.add_turbulence_noise ops
  let t3 := t2.runJunctions glottal_output lambda
  let t4 := t3.noseJunction lambda
  let t5 := t4.updateWaves
  let lip_output := t5.right (N - 1)
  let t6 := t5.noseScatter
  let t7 := t6.updateNoseWaves
  let nose_output := t7.nose_right (NOSE_LEN - 1)
  (lip_output + nose_output,
   { t7 with sample_count := t7.sample_count + 1,
             time := ((t7.sample_count + 1 : ℕ) : ℚ) / (t7.sample_rate : ℚ) })

/-- Source: `src/tract_shaper.rs`, `GRID_OFFSET`. -/
def GRID_OFFSET : ℚ := 1.7

/-- Source: `src/tract_shaper.rs`, `MOVEMENT_SPEED`. -/
def MOVEMENT_SPEED : ℚ := 15

/-- Source: `src/tract_shaper.rs`, `TractShaper`. -/
structure TractShaper where
  tract : Tract
  velum_open_target : ℚ
  velum_closed_target : ℚ
  target_diameter : ℕ → ℚ
  velum_target : ℚ
  tongue_index : ℚ
  tongue_diameter : ℚ
  last_obstruction : ℤ

/-- Source: `src/tract_shaper.rs`, `TractShaper::set_velum_open`. -/
def TractShaper.set_velum_open (s : TractShaper) (velum_open : Bool) : TractShaper :=
  { s with velum_target := if velum_open then s.velum_open_target else s.velum_closed_target }

/-- Source: `src/tract_shaper.rs`, `TractShaper::shape_noise`. -/
def TractShaper.shape_noise (s : TractShaper) (velum_open : Bool) : TractShaper :=
  let s1 := s.set_velum_open velum_open
  let nd : ℕ → ℚ := fun i =>
    if i < NOSE_LEN then
      let d := (i : ℚ) * 2 / (NOSE_LEN : ℚ)
      let diameter :=
        if i = 0 then s1.velum_target
        else if d < 1 then 0.4 + 1.6 * d
        else 0.5 + 1.5 * (2 - d)
      min diameter 1.9
    else s1.tract.nose_diameter i
  { s1 with tract := { s1.tract with nose_diameter := nd } }

/-- Source: `src/tract_shaper.rs`, `TractShaper::get_rest_diameter`. -/
def TractShaper.get_rest_diameter (ops : Ops) (s : TractShaper) (i : ℕ) : ℚ :=
  if i < 7 then 0.6
  else if i < BLADE_START then 1.1
  else if i ≥ LIP_START then 1.5
  else
    let t := 1.1 * ops.pi * (s.tongue_index - (i : ℚ)) / ((TIP_START - BLADE_START : ℕ) : ℚ)
    let fixed_tongue_diameter := 2 + (s.tongue_diameter - 2) / 1.5
    let curve := (1.5 - fixed_tongue_diameter + GRID_OFFSET) * ops.cos t
    let curve := if i = BLADE_START - 2 ∨ i = LIP_START - 1 then curve * 0.8 else curve
    let curve := if i = BLADE_START ∨ i = LIP_START - 2 then curve * 0.94 else curve
    1.5 - curve

/-- Source: `src/tract_shaper.rs`, `TractShaper::shape_main_tract`. -/
def TractShaper.shape_main_tract (ops : Ops) (s : TractShaper) : TractShaper :=
  { s with
    tract := { s.tract with diameter := fun i =>
      if i < N then s.get_rest_diameter ops i else s.tract.diameter i },
    target_diameter := fun i =>
      if i < N then s.get_rest_diameter ops i else s.target_diameter i }

/-- Source: `src/tract_shaper.rs`, `TractShaper::new`.  The construction
sequence shapes the nose with an open velum, computes the nose reflections
once, then shapes the nose closed and the main tract at rest. -/
def TractShaper.new (ops : Ops) (tract : Tract) : TractShaper :=
  let res : TractShaper :=
    { tract := tract, velum_open_target := 0.4, velum_closed_target := 0.01,
      velum_target := 0, tongue_index := 12.9, tongue_diameter := 2.43,
      last_obstruction := -1, target_diameter := fun _ => 0 }
  let res := res.shape_noise true
  let res := { res with tract := res.tract.calculate_nose_reflections }
  let res := res.shape_noise false
  res.shape_main_tract ops

/-- Rate multiplier of `TractShaper::adjust_tract_shape`
(`src/tract_shaper.rs`): 0.6 below the nose coupling, 1 at or above the
tongue tip, linearly interpolated between. -/
def slowReturn (i : ℕ) : ℚ :=
  if i < NOSE_START then 0.6
  else if i ≥ TIP_START then 1
  else 0.6 + 0.4 * ((i - NOSE_START : ℕ) : ℚ) / ((TIP_START - NOSE_START : ℕ) : ℚ)

/-- Source: `src/tract_shaper.rs`, `TractShaper::add_transient`. -/
def TractShaper.add_transient (s : TractShaper) (position : ℕ) : TractShaper :=
  { s with tract := { s.tract with transients := s.tract.transients ++
      [{ position := position, start_time := s.tract.time, life_time := 0.2,
         strength := 0.3, exponent := 200 }] } }

/-- Source: `src/tract_shaper.rs`, `TractShaper::adjust_tract_shape`. -/
def TractShaper.adjust_tract_shape (s : TractShaper) (delta_time : ℚ) : TractShaper :=
  let amount := delta_time * MOVEMENT_SPEED
  let new_last_obstruction : ℤ :=
    (List.range N).foldl (fun acc i => if s.tract.diameter i ≤ 0 then (i : ℤ) else acc) (-1)
  let nd : ℕ → ℚ := fun i =>
    if i < N then
      move_towards (s.tract.diameter i) (s.target_diameter i) (slowReturn i * amount) (2 * amount)
    else s.tract.diameter i
  let s1 := { s with tract := { s.tract with diameter := nd } }
  let s2 :=
    if s1.last_obstruction ≥ 0 ∧ new_last_obstruction < 0 ∧ s1.tract.nose_diameter 0 < 0.223
    then s1.add_transient s1.last_obstruction.toNat else s1
  let s3 := { s2 with last_obstruction := new_last_obstruction }
  let nd0 := move_towards (s3.tract.nose_diameter 0) s3.velum_target (amount * 0.25) (amount * 0.1)
  { s3 with tract := { s3.tract with nose_diameter := Function.update s3.tract.nose_diameter 0 nd0 } }

/-- Source: `src/trombone.rs`, `u32::MAX` of the guard in
`PinkTrombone::new`. -/
def U32_MAX : ℕ := 4294967295

/-- Source: `src/trombone.rs`, `PinkTrombone::MAX_BLOCK_LEN`. -/
def MAX_BLOCK_LEN : ℕ := 512

/-- Source: `src/trombone.rs`, `PinkTrombone`. -/
structure PinkTrombone where
  shaper : TractShaper
  sample_rate : ℕ

/-- Replace the owned tract. -/
def PinkTrombone.setTract (pt : PinkTrombone) (t : Tract) : PinkTrombone :=
  { pt with shaper := { pt.shaper with tract := t } }

/-- Replace the glottis nested inside the owned tract. -/
def PinkTrombone.setGlottis (pt : PinkTrombone) (g : Glottis) : PinkTrombone :=
  pt.setTract { pt.shaper.tract with glottis := g }

/-- Source: `src/trombone.rs`, `PinkTrombone::new`; the two `panic!` guards
are modelled as `none`, and the doubled tract rate is a `u32` product. -/
def PinkTrombone.new (ops : Ops) (sample_rate : ℕ) (rng : NoiseSource) (seed : ℕ) :
    Option PinkTrombone :=
  if sample_rate ≥ U32_MAX / 2 then none
  else if sample_rate = 0 then none
  else
    let gl := Glottis.new ops sample_rate rng seed
    match Tract.new ops gl.1 (2 * sample_rate % 2 ^ 32) gl.2 with
    | none => none
    | some tr => some { shaper := TractShaper.new ops tr.1, sample_rate := sample_rate }

/-- Source: `src/trombone.rs`, `PinkTrombone::calculate_new_block_parameters`. -/
def PinkTrombone.calculate_new_block_parameters (ops : Ops) (pt : PinkTrombone)
    (delta_time : ℚ) : PinkTrombone :=
  let pt1 := pt.setGlottis (pt.shaper.tract.glottis.adjust_parameters ops delta_time)
  let pt2 := { pt1 with shaper := pt1.shaper.adjust_tract_shape delta_time }
  pt2.setTract pt2.shaper.tract.calculate_new_block_parameters

/-- Body of the per-sample loop of `PinkTrombone::synthesize_block`
(`src/trombone.rs`, lines 147-154): one `Glottis::step` at `λ₁ = i/len`,
whose single output is fed through two `Tract::step` half-steps at `λ₁` and
`λ₂ = (i+0.5)/len`; the sample is the sum of the two scaled by 0.125. -/
def samplePass (ops : Ops) (len : ℕ) (pt : PinkTrombone) (i : ℕ) : ℚ × PinkTrombone :=
  let lambda1 := (i : ℚ) / (len : ℚ)
  let lambda2 := ((i : ℚ) + 0.5) / (len : ℚ)
  let gs := Glottis.step ops pt.shaper.tract.glottis lambda1
  let pt1 := pt.setGlottis gs.2
  let ts1 := Tract.step ops pt1.shaper.tract gs.1 lambda1
  let pt2 := pt1.setTract ts1.2
  let ts2 := Tract.step ops pt2.shaper.tract gs.1 lambda2
  let pt3 := pt2.setTract ts2.2
  ((ts1.1 + ts2.1) * 0.125, pt3)

/-- Source: `src/trombone.rs`, `PinkTrombone::synthesize_block`. -/
def PinkTrombone.synthesize_block (ops : Ops) (pt : PinkTrombone) (len : ℕ) :
    List ℚ × PinkTrombone :=
  let delta_time := (len : ℚ) / (pt.sample_rate : ℚ)
  let pt0 := pt.calculate_new_block_parameters ops delta_time
  (List.range len).foldl
    (fun acc i =>
      let s := samplePass ops len acc.2 i
      (acc.1 ++ [s.1], s.2))
    ([], pt0)

/-- Source: `src/trombone.rs`, `PinkTrombone::synthesize`: the while loop
over chunks of at most `MAX_BLOCK_LEN` samples, by recursion on the number
of samples still to produce. -/
def PinkTrombone.synthesizeAux (ops : Ops) (remaining : ℕ) (pt : PinkTrombone) :
    List ℚ × PinkTrombone :=
  if h : remaining = 0 then ([], pt)
  else
    let block_len := min remaining MAX_BLOCK_LEN
    let r := pt.synthesize_block ops block_len
    let rest := PinkTrombone.synthesizeAux ops (remaining - block_len) r.2
    (r.1 ++ rest.1, rest.2)
termination_by remaining
decreasing_by
  have h1 : 0 < remaining := Nat.pos_of_ne_zero h
  have h2 : 0 < min remaining MAX_BLOCK_LEN := by
    have : (0 : ℕ) < MAX_BLOCK_LEN := by decide
    exact Nat.lt_min.mpr ⟨h1, this⟩
  exact Nat.sub_lt h1 h2

/-- Source: `src/trombone.rs`, `PinkTrombone::synthesize` for a buffer of
`len` samples. -/
def PinkTrombone.synthesize (ops : Ops) (pt : PinkTrombone) (len : ℕ) :
    List ℚ × PinkTrombone :=
  PinkTrombone.synthesizeAux ops len pt

/-- Source: `src/trombone.rs`, `PinkTrombone::set_intensity`. -/
def PinkTrombone.set_intensity (pt : PinkTrombone) (v : ℚ) : PinkTrombone :=
  pt.setGlottis { pt.shaper.tract.glottis with intensity := v }

/-- Source: `src/trombone.rs`, `PinkTrombone::set_loudness`. -/
def PinkTrombone.set_loudness (pt : PinkTrombone) (v : ℚ) : PinkTrombone :=
  pt.setGlottis { pt.shaper.tract.glottis with loudness := v }

/-- Source: `src/trombone.rs`, `PinkTrombone::set_target_frequency`. -/
def PinkTrombone.set_target_frequency (pt : PinkTrombone) (v : ℚ) : PinkTrombone :=
  pt.setGlottis { pt.shaper.tract.glottis with target_frequency := v }

/-- Source: `src/trombone.rs`, `PinkTrombone::set_target_tenseness`. -/
def PinkTrombone.set_target_tenseness (pt : PinkTrombone) (v : ℚ) : PinkTrombone :=
  pt.setGlottis { pt.shaper.tract.glottis with target_tenseness := v }

/-- Source: `src/trombone.rs`, `PinkTrombone::set_tongue_index`. -/
def PinkTrombone.set_tongue_index (pt : PinkTrombone) (v : ℚ) : PinkTrombone :=
  { pt with shaper := { pt.shaper with tongue_index := v } }

/-- Source: `src/trombone.rs`, `PinkTrombone::set_tongue_diameter`. -/
def PinkTrombone.set_tongue_diameter (pt : PinkTrombone) (v : ℚ) : PinkTrombone :=
  { pt with shaper := { pt.shaper with tongue_diameter := v } }

/-- Source: `src/trombone.rs`, `PinkTrombone::set_vibrato_gain`. -/
def PinkTrombone.set_vibrato_gain (pt : PinkTrombone) (v : ℚ) : PinkTrombone :=
  pt.setGlottis { pt.shaper.tract.glottis with vibrato_amount := v }

/-- Source: `src/trombone.rs`, `PinkTrombone::set_vibrato_frequency`. -/
def PinkTrombone.set_vibrato_frequency (pt : PinkTrombone) (v : ℚ) : PinkTrombone :=
  pt.setGlottis { pt.shaper.tract.glottis with vibrato_frequency := v }

/-- Source: `src/trombone.rs`, `PinkTrombone::set_vibrato_wobble`. -/
def PinkTrombone.set_vibrato_wobble (pt : PinkTrombone) (b : Bool) : PinkTrombone :=
  pt.setGlottis { pt.shaper.tract.glottis with auto_wobble := b }

/-- Source: `src/trombone.rs`, `PinkTrombone::set_velum_open`. -/
def PinkTrombone.set_velum_open (pt : PinkTrombone) (b : Bool) : PinkTrombone :=
  { pt with shaper := pt.shaper.set_velum_open b }

/-- Source: `src/trombone.rs`, `PinkTrombone::set_musical_note`. -/
def PinkTrombone.set_musical_note (ops : Ops) (pt : PinkTrombone) (semitone : ℚ) : PinkTrombone :=
  pt.setGlottis (pt.shaper.tract.glottis.set_musical_note ops semitone)

/-- One driver command against the public surface of `PinkTrombone`:
either a parameter setter or a `synthesize` call over a buffer length. -/
inductive Cmd where
  | setIntensity (v : ℚ)
  | setLoudness (v : ℚ)
  | setTargetFrequency (v : ℚ)
  | setTargetTenseness (v : ℚ)
  | setTongueIndex (v : ℚ)
  | setTongueDiameter (v : ℚ)
  | setVibratoGain (v : ℚ)
  | setVibratoFrequency (v : ℚ)
  | setVibratoWobble (b : Bool)
  | setVelumOpen (b : Bool)
  | setMusicalNote (v : ℚ)
  | synthesize (len : ℕ)

/-- Run one driver command, returning the produced samples (empty for a
setter). -/
def PinkTrombone.runCmd (ops : Ops) (pt : PinkTrombone) : Cmd → List ℚ × PinkTrombone
  | Cmd.setIntensity v => ([], pt.set_intensity v)
  | Cmd.setLoudness v => ([], pt.set_loudness v)
  | Cmd.setTargetFrequency v => ([], pt.set_target_frequency v)
  | Cmd.setTargetTenseness v => ([], pt.set_target_tenseness v)
  | Cmd.setTongueIndex v => ([], pt.set_tongue_index v)
  | Cmd.setTongueDiameter v => ([], pt.set_tongue_diameter v)
  | Cmd.setVibratoGain v => ([], pt.set_vibrato_gain v)
  | Cmd.setVibratoFrequency v => ([], pt.set_vibrato_frequency v)
  | Cmd.setVibratoWobble b => ([], pt.set_vibrato_wobble b)
  | Cmd.setVelumOpen b => ([], pt.set_velum_open b)
  | Cmd.setMusicalNote v => ([], pt.set_musical_note ops v)
  | Cmd.synthesize len => pt.synthesize ops len

/-- Concatenated output of a whole driver schedule. -/
def PinkTrombone.runSchedule (ops : Ops) : PinkTrombone → List Cmd → List ℚ
  | _, [] => []
  | pt, c :: rest =>
    (pt.runCmd ops c).1 ++ PinkTrombone.runSchedule ops (pt.runCmd ops c).2 rest

/-- Per-sample schedule as claim C1 words it (a second definition following
the spec, for comparison with `samplePass`): `Glottis::step` is called once
per λ, so twice per sample, and each of the two glottal excitations is fed
through one tract half-step at its λ. -/
def samplePassSpecC1 (ops : Ops) (len : ℕ) (pt : PinkTrombone) (i : ℕ) : ℚ × PinkTrombone :=
  let lambda1 := (i : ℚ) / (len : ℚ)
  let lambda2 := ((i : ℚ) + 0.5) / (len : ℚ)
  let gs1 := Glottis.step ops pt.shaper.tract.glottis lambda1
  let pt1 := pt.setGlottis gs1.2
  let ts1 := Tract.step ops pt1.shaper.tract gs1.1 lambda1
  let pt2 := pt1.setTract ts1.2
  let gs2 := Glottis.step ops pt2.shaper.tract.glottis lambda2
  let pt3 := pt2.setGlottis gs2.2
  let ts2 := Tract.step ops pt3.shaper.tract gs2.1 lambda2
  let pt4 := pt3.setTract ts2.2
  ((ts1.1 + ts2.1) * 0.125, pt4)

/-- Block synthesis as claim C1 words it: the per-sample loop of
`synthesize_block` but with `samplePassSpecC1` as its body. -/
def synthesize_block_specC1 (ops : Ops) (pt : PinkTrombone) (len : ℕ) :
    List ℚ × PinkTrombone :=
  let delta_time := (len : ℚ) / (pt.sample_rate : ℚ)
  let pt0 := pt.calculate_new_block_parameters ops delta_time
  (List.range len).foldl
    (fun acc i =>
      let s := samplePassSpecC1 ops len acc.2 i
      (acc.1 ++ [s.1], s.2))
    ([], pt0)

/-- Recursive presentation of the per-sample loop of `synthesize_block`,
emitting one sample per index via `samplePass` (single glottal excitation
per sample). -/
def blockLoopC1 (ops : Ops) (len : ℕ) : List ℕ → PinkTrombone → List ℚ × PinkTrombone
  | [], pt => ([], pt)
  | i :: rest, pt =>
    let s := samplePass ops len pt i
    let r := blockLoopC1 ops len rest s.2
    (s.1 :: r.1, r.2)

/-- Turbulence injection at a fractional position as claim C6 words it
(a second definition following the spec): the same linear split across the
two straddling segments, but with a thinness factor ramping from 0 to 1 as
the diameter falls over the range 0.6 to 0.7 and an openness factor ramping
from 0 to 1 as the diameter rises over the range 0.3 to 0.333. -/
def add_turbulence_noise_at_position_specC6 (t : Tract)
    (turbulence_noise position diameter : ℚ) : Tract :=
  let i : ℤ := Int.floor position
  let delta := position - (i : ℚ)
  let thinness := min 1 (max 0 ((0.7 - diameter) / (0.7 - 0.6)))
  let openness := min 1 (max 0 ((diameter - 0.3) / (0.333 - 0.3)))
  let noise0 := turbulence_noise * (1 - delta) * thinness * openness
  let noise1 := turbulence_noise * delta * thinness * openness
  let t1 :=
    if i + 1 < (N : ℤ) then
      let idx := (i + 1).toNat
      { t with right := Function.update t.right idx (t.right idx + noise0 * 0.5),
               left := Function.update t.left idx (t.left idx + noise0 * 0.5) }
    else t
  if i + 2 < (N : ℤ) then
    let idx := (i + 2).toNat
    { t1 with right := Function.update t1.right idx (t1.right idx + noise1 * 0.5),
              left := Function.update t1.left idx (t1.left idx + noise1 * 0.5) }
  else t1

/-- Nose diameters of the open-velum configuration, exactly as
`TractShaper::shape_noise` computes them during construction with
`velum_target = velum_open_target = 0.4` (`src/tract_shaper.rs`). -/
def openVelumNoseDiameter (t0 : Tract) (i : ℕ) : ℚ :=
  if i < NOSE_LEN then
    let d := (i : ℚ) * 2 / (NOSE_LEN : ℚ)
    let diameter :=
      if i = 0 then (0.4 : ℚ)
      else if d < 1 then 0.4 + 1.6 * d
      else 0.5 + 1.5 * (2 - d)
    min diameter 1.9
  else t0.nose_diameter i

/-- Trivial instantiation of the transcendental primitives, used to build
concrete witness states (every primitive is a constant rational function). -/
def opsX : Ops :=
  { pi := 3, sin := fun _ => 0, cos := fun _ => 0, exp := fun _ => 1,
    ln := fun _ => 0, sqrt := fun _ => 0, pow := fun _ _ => 1, simplex := fun _ _ => 0 }

/-- Variant of `opsX` whose sine and cosine are the constant 1/2, so that
the bandpass filter coefficients and hence the filtered noise samples are
nonzero. -/
def opsY : Ops := { opsX with sin := fun _ => 0.5, cos := fun _ => 0.5 }

/-- Constant-zero noise source for witness states. -/
def rngX : NoiseSource := { stream := fun _ => 0, pos := 0 }

/-- Concrete glottis built by `Glottis::new` at sample rate 1 under `opsX`. -/
def glottisX : Glottis := (Glottis.new opsX 1 rngX 0).1

/-- Noise source left over after `glottisX` was constructed. -/
def rngX2 : NoiseSource := (Glottis.new opsX 1 rngX 0).2

/-- Concrete tract built at the doubled rate 2 under `opsX`. -/
def tractX : Tract := (Tract.mkRaw opsX glottisX 2 rngX2).1

/-- Concrete engine over `tractX` with output sample rate 1. -/
def engineX : PinkTrombone := { shaper := TractShaper.new opsX tractX, sample_rate := 1 }

/-- Concrete shaper over `tractX`. -/
def shaperX : TractShaper := TractShaper.new opsX tractX

/-- The concrete tract `tractX` with a uniform diameter of 1 everywhere. -/
def tractU : Tract := { tractX with diameter := fun _ => 1 }

/-- Concrete glottis under `opsY`. -/
def glottisY : Glottis := (Glottis.new opsY 1 rngX 0).1

/-- Noise source left over after `glottisY` was constructed. -/
def rngY2 : NoiseSource := (Glottis.new opsY 1 rngX 0).2

/-- Concrete tract under `opsY` (its frication filter has nonzero
coefficients since `opsY.sin` is nonzero). -/
def tractY : Tract := (Tract.mkRaw opsY glottisY 2 rngY2).1

/-- Concrete turbulence point: still active (`end_time` is the NaN
sentinel), position 2.5, diameter 0.65. -/
def pX : TurbulencePoint := { diameter := 0.65, position := 2.5, start_time := 0, end_time := none }

/-- The tract `tractY` at time 1 with `pX` as its only turbulence point. -/
def tractT : Tract := { tractY with turbulence_points := [pX], time := 1 }

/-- Scaled noise drawn for one eligible turbulence point
(`Tract::add_turbulence_noise`): 0.66 times the filtered-noise sample times
the envelope times the glottal noise modulator. -/
def turbulenceNoiseOf (ops : Ops) (t : Tract) (p : TurbulencePoint) : ℚ :=
  0.66 * (t.frication_noise_source.step).1 * turbulenceIntensity t.time p *
    Glottis.get_noise_modulator ops t.glottis

/-- The nose-junction recomputation only touches the six scalar coupling
reflections: the interior and nose reflection arrays are untouched. -/
theorem calc_nose_junction_preserves (t : Tract) :
    (t.calculate_nose_junction_reflections).new_reflection = t.new_reflection ∧
    (t.calculate_nose_junction_reflections).nose_reflection = t.nose_reflection := by
  constructor <;> (simp only [Tract.calculate_nose_junction_reflections]; split <;> rfl)

/-- A single turbulence injection never touches the transient list. -/
theorem at_position_transients (t : Tract) (n p d : ℚ) :
    (t.add_turbulence_noise_at_position n p d).transients = t.transients := by
  simp only [Tract.add_turbulence_noise_at_position]
  split <;> split <;> rfl

/-- Folding turbulence injections over any list never touches the transient
list. -/
theorem foldl_at_position_transients (l : List (ℚ × ℚ × ℚ)) : ∀ t : Tract,
    (l.foldl (fun tr x => tr.add_turbulence_noise_at_position x.1 x.2.1 x.2.2) t).transients
      = t.transients := by
  induction l with
  | nil => intro t; rfl
  | cons x rest ih =>
    intro t
    rw [List.foldl_cons, ih]
    exact at_position_transients t x.1 x.2.1 x.2.2

/-- Turbulence injection never touches the transient list. -/
theorem add_turbulence_noise_transients (ops : Ops) (t : Tract) :
    (t.add_turbulence_noise ops).transients = t.transients := by
  exact foldl_at_position_transients _ _

/-- The interior scatter phase never touches the transient list. -/
theorem runJunctions_transients (t : Tract) (go lam : ℚ) :
    (t.runJunctions go lam).transients = t.transients := rfl

/-- The nose junction phase never touches the transient list. -/
theorem noseJunction_transients (t : Tract) (lam : ℚ) :
    (t.noseJunction lam).transients = t.transients := rfl

/-- The wave shift phase never touches the transient list. -/
theorem updateWaves_transients (t : Tract) :
    t.updateWaves.transients = t.transients := rfl

/-- The nose scatter phase never touches the transient list. -/
theorem noseScatter_transients (t : Tract) :
    t.noseScatter.transients = t.transients := rfl

/-- The nose wave shift phase never touches the transient list. -/
theorem updateNoseWaves_transients (t : Tract) :
    t.updateNoseWaves.transients = t.transients := rfl

/-- A single turbulence injection never touches the glottis. -/
theorem at_position_glottis (t : Tract) (n p d : ℚ) :
    (t.add_turbulence_noise_at_position n p d).glottis = t.glottis := by
  simp only [Tract.add_turbulence_noise_at_position]
  split <;> split <;> rfl

/-- Folding turbulence injections over any list never touches the glottis. -/
theorem foldl_at_position_glottis (l : List (ℚ × ℚ × ℚ)) : ∀ t : Tract,
    (l.foldl (fun tr x => tr.add_turbulence_noise_at_position x.1 x.2.1 x.2.2) t).glottis
      = t.glottis := by
  induction l with
  | nil => intro t; rfl
  | cons x rest ih =>
    intro t
    rw [List.foldl_cons, ih]
    exact at_position_glottis t x.1 x.2.1 x.2.2

/-- Turbulence injection never touches the glottis. -/
theorem add_turbulence_noise_glottis (ops : Ops) (t : Tract) :
    (t.add_turbulence_noise ops).glottis = t.glottis :=
  foldl_at_position_glottis _ _

/-- A tract half-step never touches the glottis nested in the tract. -/
theorem tract_step_glottis (ops : Ops) (t : Tract) (go lam : ℚ) :
    (Tract.step ops t go lam).2.glottis = t.glottis := by
  simp only [Tract.step]
  have e5 : ∀ s : Tract, s.updateNoseWaves.glottis = s.glottis := fun _ => rfl
  have e4 : ∀ s : Tract, s.noseScatter.glottis = s.glottis := fun _ => rfl
  have e3 : ∀ s : Tract, s.updateWaves.glottis = s.glottis := fun _ => rfl
  have e2 : ∀ (s : Tract) (l : ℚ), (s.noseJunction l).glottis = s.glottis := fun _ _ => rfl
  have e1 : ∀ (s : Tract) (g l : ℚ), (s.runJunctions g l).glottis = s.glottis := fun _ _ _ => rfl
  rw [e5, e4, e3, e2, e1, add_turbulence_noise_glottis]
  rfl

/-- `Glottis::step` increments the sample counter by exactly one. -/
theorem glottis_step_sample_count (ops : Ops) (g : Glottis) (lam : ℚ) :
    (Glottis.step ops g lam).2.sample_count = g.sample_count + 1 := by
  simp only [Glottis.step]
  split <;> rfl

/-- `Glottis::adjust_parameters` never touches the sample counter. -/
theorem adjust_parameters_sample_count (ops : Ops) (g : Glottis) (dt : ℚ) :
    (g.adjust_parameters ops dt).sample_count = g.sample_count := by
  have efreq : ∀ (g' : Glottis) (time d : ℚ),
      (g'.calculate_new_frequency ops time d).sample_count = g'.sample_count := by
    intro g' time d
    simp only [Glottis.calculate_new_frequency]
    split
    · rfl
    · split
      · rfl
      · split <;> rfl
  simp only [Glottis.adjust_parameters, Glottis.calculate_new_tenseness]
  rw [efreq]
  rfl

/-- `TractShaper::adjust_tract_shape` never touches the glottis. -/
theorem adjust_tract_shape_glottis (s : TractShaper) (dt : ℚ) :
    (s.adjust_tract_shape dt).tract.glottis = s.tract.glottis := by
  simp only [TractShaper.adjust_tract_shape, TractShaper.add_transient]
  split <;> rfl

/-- The per-block tract reflection recomputation never touches the
glottis. -/
theorem tract_calc_params_glottis (t : Tract) :
    (t.calculate_new_block_parameters).glottis = t.glottis := by
  simp only [Tract.calculate_new_block_parameters, Tract.calculate_nose_junction_reflections]
  split <;> rfl

/-- The per-block parameter recomputation of the orchestrator never touches
the glottal sample counter. -/
theorem calc_block_sample_count (ops : Ops) (pt : PinkTrombone) (dt : ℚ) :
    (pt.calculate_new_block_parameters ops dt).shaper.tract.glottis.sample_count
      = pt.shaper.tract.glottis.sample_count := by
  simp only [PinkTrombone.calculate_new_block_parameters, PinkTrombone.setTract,
    PinkTrombone.setGlottis]
  rw [tract_calc_params_glottis, adjust_tract_shape_glottis]
  simp only [PinkTrombone.setTract, PinkTrombone.setGlottis]
  rw [adjust_parameters_sample_count]

/-- One pass of the per-sample loop of `synthesize_block` advances the
glottal sample counter by exactly one: `Glottis::step` runs once per
sample. -/
theorem samplePass_sample_count (ops : Ops) (len : ℕ) (pt : PinkTrombone) (i : ℕ) :
    (samplePass ops len pt i).2.shaper.tract.glottis.sample_count
      = pt.shaper.tract.glottis.sample_count + 1 := by
  simp only [samplePass, PinkTrombone.setTract, PinkTrombone.setGlottis]
  rw [tract_step_glottis, tract_step_glottis, glottis_step_sample_count]

/-- One pass of the loop as claim C1 words it advances the glottal sample
counter by two: `Glottis::step` would run twice per sample. -/
theorem samplePassSpecC1_sample_count (ops : Ops) (len : ℕ) (pt : PinkTrombone) (i : ℕ) :
    (samplePassSpecC1 ops len pt i).2.shaper.tract.glottis.sample_count
      = pt.shaper.tract.glottis.sample_count + 2 := by
  simp only [samplePassSpecC1, PinkTrombone.setTract, PinkTrombone.setGlottis]
  rw [tract_step_glottis, glottis_step_sample_count, tract_step_glottis,
    glottis_step_sample_count]

/-- A one-sample block under the code's schedule leaves the glottal sample
counter one higher. -/
theorem synthesize_block_len1_sample_count (ops : Ops) (pt : PinkTrombone) :
    (PinkTrombone.synthesize_block ops pt 1).2.shaper.tract.glottis.sample_count
      = pt.shaper.tract.glottis.sample_count + 1 := by
  have hr1 : List.range 1 = [0] := by decide
  simp only [PinkTrombone.synthesize_block, hr1, List.foldl_cons, List.foldl_nil]
  rw [samplePass_sample_count, calc_block_sample_count]

/-- A one-sample block under the claimed schedule leaves the glottal sample
counter two higher. -/
theorem synthesize_block_specC1_len1_sample_count (ops : Ops) (pt : PinkTrombone) :
    (synthesize_block_specC1 ops pt 1).2.shaper.tract.glottis.sample_count
      = pt.shaper.tract.glottis.sample_count + 2 := by
  have hr1 : List.range 1 = [0] := by decide
  simp only [synthesize_block_specC1, hr1, List.foldl_cons, List.foldl_nil]
  rw [samplePassSpecC1_sample_count, calc_block_sample_count]

/-- Unfolding of `processTransientsFold`: the surviving transients are
exactly those whose age does not exceed their lifetime, and each survivor
adds half its decayed amplitude to each travelling wave at its segment. -/
theorem processTransientsFold_spec (ops : Ops) (time : ℚ) (ts : List Transient) :
    ∀ right left : ℕ → ℚ,
      (processTransientsFold ops time ts right left).1 =
        ts.filter (fun tr => decide (time - tr.start_time ≤ tr.life_time)) ∧
      (∀ j, (processTransientsFold ops time ts right left).2.1 j =
        right j + ((ts.filter (fun tr => decide (time - tr.start_time ≤ tr.life_time))).map
          (fun tr => if tr.position = j then
              tr.strength * ops.pow 2 (-(tr.exponent * (time - tr.start_time))) * 0.5
            else 0)).sum) ∧
      (∀ j, (processTransientsFold ops time ts right left).2.2 j =
        left j + ((ts.filter (fun tr => decide (time - tr.start_time ≤ tr.life_time))).map
          (fun tr => if tr.position = j then
              tr.strength * ops.pow 2 (-(tr.exponent * (time - tr.start_time))) * 0.5
            else 0)).sum) := by
  induction ts with
  | nil =>
    intro right left
    refine ⟨rfl, fun j => by simp [processTransientsFold], fun j => by simp [processTransientsFold]⟩
  | cons tr rest ih =>
    intro right left
    obtain ⟨ih1, ih2, ih3⟩ := ih right left
    by_cases hb : time - tr.start_time > tr.life_time
    · have hfold : processTransientsFold ops time (tr :: rest) right left
          = processTransientsFold ops time rest right left := by
        simp only [processTransientsFold, List.foldr_cons]
        rw [if_pos hb]
      have hfilter : (tr :: rest).filter (fun tr => decide (time - tr.start_time ≤ tr.life_time))
          = rest.filter (fun tr => decide (time - tr.start_time ≤ tr.life_time)) := by
        rw [List.filter_cons_of_neg]
        simp [not_le.mpr hb]
      rw [hfold, hfilter]
      exact ⟨ih1, ih2, ih3⟩
    · have hle : time - tr.start_time ≤ tr.life_time := not_lt.mp hb
      have hfold : processTransientsFold ops time (tr :: rest) right left
          = (tr :: (processTransientsFold ops time rest right left).1,
             Function.update (processTransientsFold ops time rest right left).2.1 tr.position
               ((processTransientsFold ops time rest right left).2.1 tr.position +
                 tr.strength * ops.pow 2 (-(tr.exponent * (time - tr.start_time))) * 0.5),
             Function.update (processTransientsFold ops time rest right left).2.2 tr.position
               ((processTransientsFold ops time rest right left).2.2 tr.position +
                 tr.strength * ops.pow 2 (-(tr.exponent * (time - tr.start_time))) * 0.5)) := by
        simp only [processTransientsFold, List.foldr_cons]
        rw [if_neg hb]
      have hfilter : (tr :: rest).filter (fun tr => decide (time - tr.start_time ≤ tr.life_time))
          = tr :: rest.filter (fun tr => decide (time - tr.start_time ≤ tr.life_time)) := by
        rw [List.filter_cons_of_pos]
        simp [hle]
      refine ⟨by rw [hfold, hfilter, ih1], fun j => ?_, fun j => ?_⟩
      · have e : (processTransientsFold ops time (tr :: rest) right left).2.1 j
            = Function.update (processTransientsFold ops time rest right left).2.1 tr.position
                ((processTransientsFold ops time rest right left).2.1 tr.position +
                  tr.strength * ops.pow 2 (-(tr.exponent * (time - tr.start_time))) * 0.5) j := by
          rw [hfold]
        rw [e, Function.update_apply, hfilter, List.map_cons, List.sum_cons]
        by_cases hj : j = tr.position
        · rw [if_pos hj, ih2 tr.position, if_pos hj.symm, hj]
          ring
        · rw [if_neg hj, ih2 j, if_neg (fun hc => hj hc.symm)]
          ring
      · have e : (processTransientsFold ops time (tr :: rest) right left).2.2 j
            = Function.update (processTransientsFold ops time rest right left).2.2 tr.position
                ((processTransientsFold ops time rest right left).2.2 tr.position +
                  tr.strength * ops.pow 2 (-(tr.exponent * (time - tr.start_time))) * 0.5) j := by
          rw [hfold]
        rw [e, Function.update_apply, hfilter, List.map_cons, List.sum_cons]
        by_cases hj : j = tr.position
        · rw [if_pos hj, ih3 tr.position, if_pos hj.symm, hj]
          ring
        · rw [if_neg hj, ih3 j, if_neg (fun hc => hj hc.symm)]
          ring

/-- Accumulator form of the per-sample loop of `synthesize_block` versus its
recursive presentation `blockLoopC1`. -/
theorem foldl_samplePass_eq (ops : Ops) (len : ℕ) (l : List ℕ) :
    ∀ (acc : List ℚ) (pt : PinkTrombone),
      l.foldl (fun acc i =>
          let s := samplePass ops len acc.2 i
          (acc.1 ++ [s.1], s.2)) (acc, pt)
        = (acc ++ (blockLoopC1 ops len l pt).1, (blockLoopC1 ops len l pt).2) := by
  induction l with
  | nil => intro acc pt; simp [blockLoopC1]
  | cons i rest ih =>
    intro acc pt
    rw [List.foldl_cons]
    refine (ih (acc ++ [(samplePass ops len pt i).1]) (samplePass ops len pt i).2).trans ?_
    simp [blockLoopC1, List.append_assoc]

/-- Bounds for `move_towards`: the result stays between the current value
and the target, moves up by at most `amount_up` and down by at most
`amount_down`. -/
theorem move_towards_spec (c tgt up down : ℚ) (hup : 0 ≤ up) (hdown : 0 ≤ down) :
    (min c tgt ≤ move_towards c tgt up down ∧ move_towards c tgt up down ≤ max c tgt) ∧
    (c < tgt → move_towards c tgt up down - c ≤ up) ∧
    (tgt ≤ c → c - move_towards c tgt up down ≤ down) := by
  unfold move_towards
  by_cases h : c < tgt
  · rw [if_pos h]
    refine ⟨⟨?_, ?_⟩, fun _ => ?_, fun h2 => ?_⟩
    · exact le_min (min_le_right c tgt) (by have := min_le_left c tgt; linarith)
    · exact le_trans (min_le_left tgt (c + up)) (le_max_right c tgt)
    · have := min_le_right tgt (c + up); linarith
    · linarith
  · rw [if_neg h]
    have h' : tgt ≤ c := not_lt.mp h
    refine ⟨⟨?_, ?_⟩, fun h2 => ?_, fun _ => ?_⟩
    · exact le_trans (min_le_right c tgt) (le_max_left tgt (c - down))
    · exact max_le (le_trans h' (le_max_left c tgt))
        (le_trans (by linarith) (le_max_left c tgt))
    · linarith
    · have := le_max_right tgt (c - down); linarith

/-- The slow-return factor is nonnegative. -/
theorem slowReturn_nonneg (i : ℕ) : 0 ≤ slowReturn i := by
  unfold slowReturn
  split
  · norm_num
  · split
    · norm_num
    · rw [show ((TIP_START - NOSE_START : ℕ) : ℚ) = 15 from by
        norm_num [TIP_START, NOSE_START, N, NOSE_LEN]]
      positivity

/-- The diameters produced by `adjust_tract_shape` at an in-range index are
exactly `move_towards` of the previous diameter to the target. -/
theorem adjust_diameter_eq (s : TractShaper) (dt : ℚ) (i : ℕ) (hi : i < N) :
    (s.adjust_tract_shape dt).tract.diameter i =
      move_towards (s.tract.diameter i) (s.target_diameter i)
        (slowReturn i * (dt * MOVEMENT_SPEED)) (2 * (dt * MOVEMENT_SPEED)) := by
  simp only [TractShaper.adjust_tract_shape, TractShaper.add_transient]
  split <;> simp [hi]

/-- C3: In every `Tract::step` call with block fraction λ, the
interior-junction scatter phase (the loop over `1..N`, before the three-way
nose junction overwrites index `NOSE_START`) computes, for every interior
junction `i ∈ [1, N)`, the λ-interpolated reflection
`r = reflection[i] + λ·(new_reflection[i] − reflection[i])`,
`w = r·(right[i−1] + left[i])`, new rightward wave `right[i−1] − w` and new
leftward wave `left[i] + w`. -/
theorem interior_junction_scatter (t : Tract) (glottal_output lambda : ℚ) (i : ℕ)
    (h1 : 1 ≤ i) (h2 : i < N) :
    (t.runJunctions glottal_output lambda).junction_output_right i =
      t.right (i - 1) -
        interpolate (t.reflection i) (t.new_reflection i) lambda * (t.right (i - 1) + t.left i) ∧
    (t.runJunctions glottal_output lambda).justion_output_left i =
      t.left i +
        interpolate (t.reflection i) (t.new_reflection i) lambda * (t.right (i - 1) + t.left i) := by
  have hi0 : i ≠ 0 := by omega
  have hiN : i ≠ N := by omega
  constructor <;> simp [Tract.runJunctions, assert_volume, hi0, hiN, h1, h2]

/-- Witness for C3 at the concrete tract `tractX`, junction 1, λ = 0. -/
theorem interior_junction_scatter_witness :
    (1 ≤ 1 ∧ 1 < N) ∧
    ((tractX.runJunctions 0 0).junction_output_right 1 =
      tractX.right 0 -
        interpolate (tractX.reflection 1) (tractX.new_reflection 1) 0 *
          (tractX.right 0 + tractX.left 1) ∧
     (tractX.runJunctions 0 0).justion_output_left 1 =
      tractX.left 1 +
        interpolate (tractX.reflection 1) (tractX.new_reflection 1) 0 *
          (tractX.right 0 + tractX.left 1)) :=
  ⟨by decide, interior_junction_scatter tractX 0 0 1 (by decide) (by decide)⟩

/-- C4: For a tract whose 44 diameters all equal `d`,
`calculate_new_block_parameters` sets every newly computed interior
main-tract reflection to exactly 0 when `2·d²` exceeds the degeneracy
threshold `1e-6`, and to the fallback 1 otherwise. -/
theorem uniform_diameter_reflections (t : Tract) (d : ℚ)
    (hd : ∀ i, i < N → t.diameter i = d) (i : ℕ) (h1 : 1 ≤ i) (h2 : i < N) :
    (t.calculate_new_block_parameters).new_reflection i =
      if 1e-6 < 2 * d ^ 2 then 0 else 1 := by
  have hpres : (t.calculate_new_block_parameters).new_reflection
      = (t.calculate_main_tract_reflections).new_reflection :=
    (calc_nose_junction_preserves (t.calculate_main_tract_reflections)).1
  rw [hpres]
  have hcond : 1 ≤ i ∧ i < N := ⟨h1, h2⟩
  simp only [Tract.calculate_main_tract_reflections]
  rw [if_pos hcond, hd (i - 1) (by omega), hd i h2]
  have hsq : sqr d = d ^ 2 := by unfold sqr; ring
  rw [hsq]
  have habs : |d ^ 2 + d ^ 2| = 2 * d ^ 2 := by
    rw [abs_of_nonneg (by positivity)]; ring
  by_cases hc : (1e-6 : ℚ) < 2 * d ^ 2
  · rw [if_pos (by rw [habs]; exact hc), if_pos hc]
    simp
  · rw [if_neg (by rw [habs]; exact hc), if_neg hc]

/-- Witness for C4 at the concrete uniform tract `tractU` (diameter 1). -/
theorem uniform_diameter_reflections_witness :
    (∀ i, i < N → tractU.diameter i = 1) ∧ (1 ≤ 1 ∧ 1 < N) ∧
    (tractU.calculate_new_block_parameters).new_reflection 1 =
      if (1e-6 : ℚ) < 2 * 1 ^ 2 then 0 else 1 :=
  ⟨fun _ _ => rfl, by decide,
   uniform_diameter_reflections tractU 1 (fun _ _ => rfl) 1 (by decide) (by decide)⟩

/-- C5: Each `Tract::step` removes a transient exactly when its age (tract
time minus start time) exceeds its lifetime; every transient whose age is at
most its lifetime survives and instead has the amplitude
`strength · 2^(−exponent·age)` added half to the rightward and half to the
leftward travelling wave at its segment position. -/
theorem transient_decay_and_removal (ops : Ops) (t : Tract) (glottal_output lambda : ℚ) :
    (Tract.step ops t glottal_output lambda).2.transients =
      t.transients.filter (fun tr => decide (t.time - tr.start_time ≤ tr.life_time)) ∧
    (∀ j, (t.process_transients ops).right j =
      t.right j + ((t.transients.filter
          (fun tr => decide (t.time - tr.start_time ≤ tr.life_time))).map
        (fun tr => if tr.position = j then
            tr.strength * ops.pow 2 (-(tr.exponent * (t.time - tr.start_time))) * 0.5
          else 0)).sum) ∧
    (∀ j, (t.process_transients ops).left j =
      t.left j + ((t.transients.filter
          (fun tr => decide (t.time - tr.start_time ≤ tr.life_time))).map
        (fun tr => if tr.position = j then
            tr.strength * ops.pow 2 (-(tr.exponent * (t.time - tr.start_time))) * 0.5
          else 0)).sum) := by
  obtain ⟨h1, h2, h3⟩ := processTransientsFold_spec ops t.time t.transients t.right t.left
  refine ⟨?_, h2, h3⟩
  have e1 : (Tract.step ops t glottal_output lambda).2.transients
      = ((t.process_transients ops).add_turbulence_noise ops).transients := by
    simp only [Tract.step]
    rw [updateNoseWaves_transients, noseScatter_transients, updateWaves_transients,
      noseJunction_transients, runJunctions_transients]
  rw [e1, add_turbulence_noise_transients]
  exact h1

/-- C7: The nose branch's own reflection coefficients are fixed at
construction from the open-velum nose diameters (construction shapes the
nose open before computing them, then closes the velum: the constructed
velum diameter is 0.01 while the reflections were computed with 0.4), and
the per-block recomputation leaves the nose reflection array unchanged. -/
theorem nose_reflections_construction_only (ops : Ops) (t0 : Tract) :
    (∀ i, (TractShaper.new ops t0).tract.nose_reflection i =
      (if 1 ≤ i ∧ i < NOSE_LEN then
        assert_volume
          ((max 1e-6 (sqr (openVelumNoseDiameter t0 (i - 1))) -
              max 1e-6 (sqr (openVelumNoseDiameter t0 i))) /
            (max 1e-6 (sqr (openVelumNoseDiameter t0 (i - 1))) +
              max 1e-6 (sqr (openVelumNoseDiameter t0 i))))
      else t0.nose_reflection i)) ∧
    (TractShaper.new ops t0).tract.nose_diameter 0 = 0.01 ∧
    ∀ t : Tract, (t.calculate_new_block_parameters).nose_reflection = t.nose_reflection := by
  refine ⟨fun i => rfl, ?_, fun t => ?_⟩
  · exact (show min (0.01 : ℚ) 1.9 = 0.01 by norm_num)
  · exact (calc_nose_junction_preserves (t.calculate_main_tract_reflections)).2

/-- C8: For `adjust_tract_shape` with a nonnegative time step, every
segment's new diameter lies between its previous value and its target, the
growth per call is at most `slow_return · Δt · 15` and the shrink per call
at most `2 · Δt · 15`. -/
theorem adjust_tract_shape_bounded (s : TractShaper) (dt : ℚ) (hdt : 0 ≤ dt)
    (i : ℕ) (hi : i < N) :
    (min (s.tract.diameter i) (s.target_diameter i) ≤ (s.adjust_tract_shape dt).tract.diameter i ∧
     (s.adjust_tract_shape dt).tract.diameter i ≤ max (s.tract.diameter i) (s.target_diameter i)) ∧
    (s.tract.diameter i < s.target_diameter i →
      (s.adjust_tract_shape dt).tract.diameter i - s.tract.diameter i ≤
        slowReturn i * (dt * MOVEMENT_SPEED)) ∧
    (s.target_diameter i ≤ s.tract.diameter i →
      s.tract.diameter i - (s.adjust_tract_shape dt).tract.diameter i ≤
        2 * (dt * MOVEMENT_SPEED)) := by
  rw [adjust_diameter_eq s dt i hi]
  have hms : (0 : ℚ) ≤ dt * MOVEMENT_SPEED :=
    mul_nonneg hdt (by norm_num [MOVEMENT_SPEED])
  exact move_towards_spec (s.tract.diameter i) (s.target_diameter i) _ _
    (mul_nonneg (slowReturn_nonneg i) hms) (by linarith)

/-- Witness for C8 at the concrete shaper `shaperX`, Δt = 1, segment 0. -/
theorem adjust_tract_shape_bounded_witness :
    ((0 : ℚ) ≤ 1 ∧ 0 < N) ∧
    ((min (shaperX.tract.diameter 0) (shaperX.target_diameter 0) ≤
        (shaperX.adjust_tract_shape 1).tract.diameter 0 ∧
      (shaperX.adjust_tract_shape 1).tract.diameter 0 ≤
        max (shaperX.tract.diameter 0) (shaperX.target_diameter 0)) ∧
     (shaperX.tract.diameter 0 < shaperX.target_diameter 0 →
       (shaperX.adjust_tract_shape 1).tract.diameter 0 - shaperX.tract.diameter 0 ≤
         slowReturn 0 * (1 * MOVEMENT_SPEED)) ∧
     (shaperX.target_diameter 0 ≤ shaperX.tract.diameter 0 →
       shaperX.tract.diameter 0 - (shaperX.adjust_tract_shape 1).tract.diameter 0 ≤
         2 * (1 * MOVEMENT_SPEED))) :=
  ⟨⟨by norm_num, by decide⟩,
   adjust_tract_shape_bounded shaperX 1 (by norm_num) 0 (by decide)⟩

/-- C9: `PinkTrombone::new` fails (the modelled `panic!`) exactly when the
sample rate is 0 or at least `u32::MAX / 2`; any constructed engine reports
the given sample rate. -/
theorem pink_trombone_new_guard (ops : Ops) (rng : NoiseSource) (seed sr : ℕ) :
    (PinkTrombone.new ops sr rng seed = none ↔ sr = 0 ∨ U32_MAX / 2 ≤ sr) ∧
    ∀ e, PinkTrombone.new ops sr rng seed = some e → e.sample_rate = sr := by
  by_cases h1 : U32_MAX / 2 ≤ sr
  · have hn : PinkTrombone.new ops sr rng seed = none := by
      unfold PinkTrombone.new; rw [if_pos h1]
    refine ⟨iff_of_true hn (Or.inr h1), fun e he => ?_⟩
    rw [hn] at he; cases he
  · by_cases h2 : sr = 0
    · have hn : PinkTrombone.new ops sr rng seed = none := by
        unfold PinkTrombone.new; rw [if_neg h1, if_pos h2]
      refine ⟨iff_of_true hn (Or.inl h2), fun e he => ?_⟩
      rw [hn] at he; cases he
    · have hm : ¬(2 * sr % 2 ^ 32 = 0) := by
        have hlt : 2 * sr < 2 ^ 32 := by
          have hx : sr < U32_MAX / 2 := lt_of_not_ge h1
          have : U32_MAX / 2 = 2147483647 := by norm_num [U32_MAX]
          omega
        rw [Nat.mod_eq_of_lt hlt]
        omega
      have hs : PinkTrombone.new ops sr rng seed =
          some { shaper := TractShaper.new ops
                   (Tract.mkRaw ops (Glottis.new ops sr rng seed).1 (2 * sr % 2 ^ 32)
                     (Glottis.new ops sr rng seed).2).1,
                 sample_rate := sr } := by
        simp only [PinkTrombone.new, Tract.new, if_neg h1, if_neg h2, if_neg hm]
      refine ⟨iff_of_false (by rw [hs]; simp) (not_or.mpr ⟨h2, h1⟩), fun e he => ?_⟩
      rw [hs] at he
      have := Option.some.inj he
      rw [← this]

/-- Witness for C9: the construction fails at 0 and at `u32::MAX / 2`, and
succeeds reporting its rate at 48000. -/
theorem pink_trombone_new_guard_witness :
    PinkTrombone.new opsX 0 rngX 0 = none ∧
    PinkTrombone.new opsX 2147483647 rngX 0 = none ∧
    ∀ e, PinkTrombone.new opsX 48000 rngX 0 = some e → e.sample_rate = 48000 :=
  ⟨(pink_trombone_new_guard opsX rngX 0 0).1.mpr (Or.inl rfl),
   (pink_trombone_new_guard opsX rngX 0 2147483647).1.mpr (Or.inr (by norm_num [U32_MAX])),
   (pink_trombone_new_guard opsX rngX 0 48000).2⟩

/-- C10: With target tenseness and intensity in `[0, 1]` (and a sine bounded
above by 1), `get_noise_modulator` lies in `[0.1, 0.3]`: it is the convex
combination, weighted by `target_tenseness · intensity`, of the constant 0.3
and the half-rectified-sine term `0.1 + 0.2·max 0 (sin θ) ∈ [0.1, 0.3]`. -/
theorem noise_modulator_range (ops : Ops) (g : Glottis)
    (hsin : ∀ x, ops.sin x ≤ 1)
    (ht0 : 0 ≤ g.target_tenseness) (ht1 : g.target_tenseness ≤ 1)
    (hi0 : 0 ≤ g.intensity) (hi1 : g.intensity ≤ 1) :
    0.1 ≤ Glottis.get_noise_modulator ops g ∧ Glottis.get_noise_modulator ops g ≤ 0.3 := by
  show (0.1 : ℚ) ≤ g.target_tenseness * g.intensity *
      (0.1 + 0.2 * max 0 (ops.sin (ops.pi * 2 * g.time_in_waveform / g.waveform_length))) +
      (1 - g.target_tenseness * g.intensity) * 0.3 ∧
    g.target_tenseness * g.intensity *
      (0.1 + 0.2 * max 0 (ops.sin (ops.pi * 2 * g.time_in_waveform / g.waveform_length))) +
      (1 - g.target_tenseness * g.intensity) * 0.3 ≤ 0.3
  set m := max 0 (ops.sin (ops.pi * 2 * g.time_in_waveform / g.waveform_length)) with hm
  have hm0 : 0 ≤ m := le_max_left 0 _
  have hm1 : m ≤ 1 := max_le (by norm_num) (hsin _)
  set c := g.target_tenseness * g.intensity with hc
  have hc0 : 0 ≤ c := mul_nonneg ht0 hi0
  have hc1 : c ≤ 1 := mul_le_one₀ ht1 hi0 hi1
  have hv0 : c * (0.1 : ℚ) ≤ c * (0.1 + 0.2 * m) :=
    mul_le_mul_of_nonneg_left (by linarith) hc0
  have hv1 : c * (0.1 + 0.2 * m) ≤ c * (0.3 : ℚ) :=
    mul_le_mul_of_nonneg_left (by linarith) hc0
  constructor <;> nlinarith [hv0, hv1, hc0, hc1]

/-- The freshly built glottis has target tenseness 0.6. -/
theorem glottisX_target_tenseness_eq : glottisX.target_tenseness = 0.6 := rfl

/-- The freshly built glottis has intensity 0. -/
theorem glottisX_intensity_eq : glottisX.intensity = 0 := rfl

/-- Witness for C10 at the trivial primitives `opsX` and the freshly
constructed glottis `glottisX`. -/
theorem noise_modulator_range_witness :
    ((∀ x : ℚ, opsX.sin x ≤ 1) ∧ 0 ≤ glottisX.target_tenseness ∧
      glottisX.target_tenseness ≤ 1 ∧ 0 ≤ glottisX.intensity ∧ glottisX.intensity ≤ 1) ∧
    (0.1 ≤ Glottis.get_noise_modulator opsX glottisX ∧
      Glottis.get_noise_modulator opsX glottisX ≤ 0.3) :=
  ⟨⟨fun _ => by norm_num [opsX], by norm_num [glottisX_target_tenseness_eq],
    by norm_num [glottisX_target_tenseness_eq], by norm_num [glottisX_intensity_eq],
    by norm_num [glottisX_intensity_eq]⟩,
   noise_modulator_range opsX glottisX (fun _ => by norm_num [opsX])
     (by norm_num [glottisX_target_tenseness_eq]) (by norm_num [glottisX_target_tenseness_eq])
     (by norm_num [glottisX_intensity_eq]) (by norm_num [glottisX_intensity_eq])⟩

/-- C1 (counterexample): the claim's schedule calls `Glottis::step` twice
per sample, the code's `synthesize_block` calls it once: after one
synthesized sample the glottal sample counters already disagree (1 versus
2), so `synthesize_block` does not implement the claimed schedule. -/
theorem synthesize_block_not_two_glottis_calls :
    (PinkTrombone.synthesize_block opsX engineX 1).2.shaper.tract.glottis.sample_count ≠
      (synthesize_block_specC1 opsX engineX 1).2.shaper.tract.glottis.sample_count := by
  rw [synthesize_block_len1_sample_count, synthesize_block_specC1_len1_sample_count]
  omega

/-- C1 (amended): for every chunk, `synthesize_block` first recomputes the
block parameters over the chunk's time span and then, for each sample index
`i`, calls `Glottis::step` once at `λ₁ = i/len`, feeds that single glottal
excitation through two `Tract::step` half-steps at `λ₁` and
`λ₂ = (i+0.5)/len`, and emits the sum of the two tract outputs scaled by
0.125. -/
theorem synthesize_block_single_glottal_excitation (ops : Ops) (pt : PinkTrombone) (len : ℕ) :
    PinkTrombone.synthesize_block ops pt len =
      blockLoopC1 ops len (List.range len)
        (pt.calculate_new_block_parameters ops ((len : ℚ) / (pt.sample_rate : ℚ))) ∧
    ∀ (st : PinkTrombone) (i : ℕ),
      samplePass ops len st i =
        (let gs := Glottis.step ops st.shaper.tract.glottis ((i : ℚ) / (len : ℚ))
         let ts1 := Tract.step ops (st.setGlottis gs.2).shaper.tract gs.1 ((i : ℚ) / (len : ℚ))
         let ts2 := Tract.step ops ((st.setGlottis gs.2).setTract ts1.2).shaper.tract gs.1
           (((i : ℚ) + 0.5) / (len : ℚ))
         ((ts1.1 + ts2.1) * 0.125, ((st.setGlottis gs.2).setTract ts1.2).setTract ts2.2)) := by
  constructor
  · unfold PinkTrombone.synthesize_block
    exact (foldl_samplePass_eq ops len (List.range len) [] _).trans (by simp)
  · intro st i
    rfl

/-- C2: runs of two engines constructed with the same sample rate, the same
seed and noise sources producing the same value sequence, driven by the
identical schedule of parameter setters and `synthesize` calls, produce
identical output samples. -/
theorem synthesize_schedule_deterministic (ops : Ops) (stream1 stream2 : ℕ → ℚ)
    (sr seed : ℕ) (cmds : List Cmd) (h : ∀ n, stream1 n = stream2 n) :
    Option.map (fun pt => PinkTrombone.runSchedule ops pt cmds)
        (PinkTrombone.new ops sr { stream := stream1, pos := 0 } seed) =
      Option.map (fun pt => PinkTrombone.runSchedule ops pt cmds)
        (PinkTrombone.new ops sr { stream := stream2, pos := 0 } seed) := by
  have hs : stream1 = stream2 := funext h
  rw [hs]

/-- Witness for C2 with the constant-zero noise stream, sample rate 48000,
seed 9452, and a one-sample synthesize schedule. -/
theorem synthesize_schedule_deterministic_witness :
    Option.map (fun pt => PinkTrombone.runSchedule opsX pt [Cmd.synthesize 1])
        (PinkTrombone.new opsX 48000 { stream := fun _ => 0, pos := 0 } 9452) =
      Option.map (fun pt => PinkTrombone.runSchedule opsX pt [Cmd.synthesize 1])
        (PinkTrombone.new opsX 48000 { stream := fun _ => 0, pos := 0 } 9452) :=
  synthesize_schedule_deterministic opsX (fun _ => 0) (fun _ => 0) 48000 9452
    [Cmd.synthesize 1] (fun _ => rfl)

/-- The concrete tract `tractX` has silent travelling waves. -/
theorem tractX_right_eq (j : ℕ) : tractX.right j = 0 := rfl

/-- C6 (counterexample): at diameter 0.65 the code's thinness factor is
`clamp(8·(0.7−0.65)) = 0.4` while the claim's ramp over `[0.6, 0.7]` gives
0.5, so the injected amplitudes differ at the straddling segment. -/
theorem turbulence_thinness_window_counterexample :
    (Tract.add_turbulence_noise_at_position tractX 1 2.5 0.65).right 3 ≠
      (add_turbulence_noise_at_position_specC6 tractX 1 2.5 0.65).right 3 := by
  have hfl : Int.floor (2.5 : ℚ) = 2 := by norm_num
  have h3 : ((2 : ℤ) + 1).toNat = 3 := rfl
  have h4 : ((2 : ℤ) + 2).toNat = 4 := rfl
  have hc1 : ((2 : ℤ) + 1) < ((N : ℕ) : ℤ) := by norm_num [N]
  have hc2 : ((2 : ℤ) + 2) < ((N : ℕ) : ℤ) := by norm_num [N]
  have hcode : (Tract.add_turbulence_noise_at_position tractX 1 2.5 0.65).right 3 = 0.1 := by
    simp only [Tract.add_turbulence_noise_at_position, hfl, h3, h4, if_pos hc1, if_pos hc2,
      Function.update_apply, tractX_right_eq]
    rw [min_def, min_def, max_def, max_def]
    norm_num
  have hspec : (add_turbulence_noise_at_position_specC6 tractX 1 2.5 0.65).right 3 = 0.125 := by
    simp only [add_turbulence_noise_at_position_specC6, hfl, h3, h4, if_pos hc1, if_pos hc2,
      Function.update_apply, tractX_right_eq]
    rw [min_def, min_def, max_def, max_def]
    norm_num
  rw [hcode, hspec]
  norm_num

/-- C6 (amended): for an eligible turbulence point (position in `[2, N]`,
positive diameter, positive envelope, both straddling segments inside the
tract), the injected noise sample `0.66 · noise · envelope · modulator` is
split across the two straddling segments with the linear weights `1−δ` and
`δ`, further scaled by the thinness factor `clamp(8·(0.7−diameter), 0, 1)`
(a ramp from 0 to 1 as the diameter falls over `[0.575, 0.7]`) and the
openness factor `clamp(30·(diameter−0.3), 0, 1)` (a ramp from 0 to 1 as the
diameter rises over `[0.3, 1/3]`), half to each travelling wave. -/
theorem turbulence_injection_split (ops : Ops) (t : Tract) (p : TurbulencePoint)
    (hpts : t.turbulence_points = [p])
    (hlo : 2 ≤ p.position) (hhi : p.position ≤ (N : ℚ)) (hd : 0 < p.diameter)
    (henv : 0 < turbulenceIntensity t.time p)
    (hidx : Int.floor p.position + 2 < (N : ℤ)) :
    ((t.add_turbulence_noise ops).right ((Int.floor p.position + 1).toNat) =
      t.right ((Int.floor p.position + 1).toNat) +
        turbulenceNoiseOf ops t p * (1 - (p.position - ((Int.floor p.position : ℤ) : ℚ))) *
          min 1 (max 0 (8 * (0.7 - p.diameter))) *
          min 1 (max 0 (30 * (p.diameter - 0.3))) * 0.5) ∧
    ((t.add_turbulence_noise ops).left ((Int.floor p.position + 1).toNat) =
      t.left ((Int.floor p.position + 1).toNat) +
        turbulenceNoiseOf ops t p * (1 - (p.position - ((Int.floor p.position : ℤ) : ℚ))) *
          min 1 (max 0 (8 * (0.7 - p.diameter))) *
          min 1 (max 0 (30 * (p.diameter - 0.3))) * 0.5) ∧
    ((t.add_turbulence_noise ops).right ((Int.floor p.position + 2).toNat) =
      t.right ((Int.floor p.position + 2).toNat) +
        turbulenceNoiseOf ops t p * (p.position - ((Int.floor p.position : ℤ) : ℚ)) *
          min 1 (max 0 (8 * (0.7 - p.diameter))) *
          min 1 (max 0 (30 * (p.diameter - 0.3))) * 0.5) ∧
    ((t.add_turbulence_noise ops).left ((Int.floor p.position + 2).toNat) =
      t.left ((Int.floor p.position + 2).toNat) +
        turbulenceNoiseOf ops t p * (p.position - ((Int.floor p.position : ℤ) : ℚ)) *
          min 1 (max 0 (8 * (0.7 - p.diameter))) *
          min 1 (max 0 (30 * (p.diameter - 0.3))) * 0.5) := by
  have hskip : ¬(p.position < 2 ∨ p.position > (N : ℚ)) :=
    not_or.mpr ⟨not_lt.mpr hlo, not_lt.mpr hhi⟩
  have hd' : ¬(p.diameter ≤ 0) := not_le.mpr hd
  have hi' : ¬(turbulenceIntensity t.time p ≤ 0) := not_le.mpr henv
  have hcollect : t.add_turbulence_noise ops =
      Tract.add_turbulence_noise_at_position
        { t with frication_noise_source := (t.frication_noise_source.step).2 }
        (turbulenceNoiseOf ops t p) p.position p.diameter := by
    unfold Tract.add_turbulence_noise turbulenceNoiseOf
    rw [hpts]
    simp only [List.foldl_cons, List.foldl_nil, List.nil_append,
      if_neg hskip, if_neg hd', if_neg hi']
  have h2i : (2 : ℤ) ≤ Int.floor p.position := by
    rw [Int.le_floor]
    exact_mod_cast hlo
  have hi1 : Int.floor p.position + 1 < (N : ℤ) := by omega
  have hne : (Int.floor p.position + 1).toNat ≠ (Int.floor p.position + 2).toNat := by omega
  rw [hcollect]
  unfold Tract.add_turbulence_noise_at_position
  simp only [if_pos hi1, if_pos hidx]
  refine ⟨?_, ?_, ?_, ?_⟩ <;>
    simp [Function.update_apply, hne, Ne.symm hne]

/-- Witness for C6 at `opsY`, the concrete tract `tractT` and its
turbulence point `pX`. -/
theorem turbulence_injection_split_witness :
    (tractT.turbulence_points = [pX] ∧ 0 < turbulenceIntensity tractT.time pX ∧
      Int.floor pX.position + 2 < (N : ℤ)) ∧
    (tractT.add_turbulence_noise opsY).right ((Int.floor pX.position + 1).toNat) =
      tractT.right ((Int.floor pX.position + 1).toNat) +
        turbulenceNoiseOf opsY tractT pX *
          (1 - (pX.position - ((Int.floor pX.position : ℤ) : ℚ))) *
          min 1 (max 0 (8 * (0.7 - pX.diameter))) *
          min 1 (max 0 (30 * (pX.diameter - 0.3))) * 0.5 :=
  ⟨⟨rfl,
    by norm_num [turbulenceIntensity, pX, show tractT.time = 1 from rfl, max_def, min_def],
    by norm_num [pX, N]⟩,
   (turbulence_injection_split opsY tractT pX rfl
      (by norm_num [pX]) (by norm_num [pX, N]) (by norm_num [pX])
      (by norm_num [turbulenceIntensity, pX, show tractT.time = 1 from rfl, max_def, min_def])
      (by norm_num [pX, N])).1⟩

end PinkTromboneModel
